import Mathlib

/-!
Shallow embedding of `lib/runtime-c-api/src/import.rs` from the wasmer
repository: the foreign import registry and descriptor bridge of the C API.

Modelling conventions:
- C pointers that are only dereferenced are passed by value; the addressable
  cells behind `wasmer_import_export_value` slots are modelled as a heap,
  a `List HeapCell`, with an address being an index into that list.
- Byte arrays (`wasmer_byte_array`) are `List Nat` of byte values.
- The thread-local last error set by `update_last_error` is returned as an
  `Option String` component of each fallible operation's result.
- Null-pointer guard branches are not modelled (pointers are by-value here);
  none of the verified properties concern them.
-/

namespace Wasmer

/-- Modelled from the spec: the scalar value-type system used for signatures
is an external collaborator (`wasmer_runtime_core::types::Type`, not under
the embedded source file); the four scalar kinds carried by signatures. -/
inductive WasmTy
  | I32
  | I64
  | F32
  | F64
deriving DecidableEq, Repr

/-- Modelled from the spec: `wasmer_value_tag` lives in the C API's value
module, external to the embedded file; the foreign scalar-type tags. -/
inductive wasmer_value_tag
  | WASM_I32
  | WASM_I64
  | WASM_F32
  | WASM_F64
deriving DecidableEq, Repr

/-- Modelled from the spec: the `From<wasmer_value_tag> for Type` conversion
used by `wasmer_import_func_new` (`x.into()`); the evident bijection. -/
def valueTagToType : wasmer_value_tag → WasmTy
  | .WASM_I32 => .I32
  | .WASM_I64 => .I64
  | .WASM_F32 => .F32
  | .WASM_F64 => .F64

/-- Modelled from the spec: the `From<&Type> for wasmer_value_tag` conversion
used by `wasmer_import_func_params` and `wasmer_import_func_returns`
(`item.into()`); the evident bijection. -/
def typeToValueTag : WasmTy → wasmer_value_tag
  | .I32 => .WASM_I32
  | .I64 => .WASM_I64
  | .F32 => .WASM_F32
  | .F64 => .WASM_F64

/-- Modelled from the spec: `wasmer_import_export_kind` from the C API's
export module, external to the embedded file; the closed set of four
importable entity kinds, in the declaration order of the C enum. -/
inductive wasmer_import_export_kind
  | WASM_FUNCTION
  | WASM_GLOBAL
  | WASM_MEMORY
  | WASM_TABLE
deriving DecidableEq, Repr

/-- Modelled from the spec: `TryFrom<u32> for wasmer_import_export_kind`,
used by `wasmer_import_object_get_import` to decode the expected-kind tag;
the four kinds correspond to the integer values 0..3 in declaration order,
every other integer is rejected. -/
def decodeKind : Nat → Option wasmer_import_export_kind
  | 0 => some .WASM_FUNCTION
  | 1 => some .WASM_GLOBAL
  | 2 => some .WASM_MEMORY
  | 3 => some .WASM_TABLE
  | _ => none

/-- Modelled from the spec: `wasmer_import_export_kind::to_str`, used when
formatting the kind-mismatch error message; names the kind. -/
def kindToStr : wasmer_import_export_kind → String
  | .WASM_FUNCTION => "function"
  | .WASM_GLOBAL => "global"
  | .WASM_MEMORY => "memory"
  | .WASM_TABLE => "table"

/-- `wasmer_runtime_core::export::Context` of a function entity:
internal, or external with an opaque data pointer (modelled as an address). -/
inductive Context
  | internal
  | external (ptr : Nat)
deriving DecidableEq, Repr

/-- `wasmer_runtime_core::types::FuncSig`: ordered parameter and return
scalar-type sequences of a function signature. -/
structure FuncSig where
  params : List WasmTy
  returns : List WasmTy
deriving DecidableEq, Repr

/-- `wasmer_runtime_core::export::Export`: the closed, tagged variant over
the four importable entity kinds.  Function carries an invocable pointer
(modelled as `Nat`), a calling context and a signature; Memory, Table and
Global carry opaque handles (modelled as `Nat`).  Cloning an entity is
duplication of the value in this model. -/
inductive Export
  | function (func : Nat) (ctx : Context) (signature : FuncSig)
  | memory (handle : Nat)
  | table (handle : Nat)
  | global (handle : Nat)
deriving DecidableEq, Repr

/-- The actual kind tag of an entity (which `match` arm of the source
dispatches on it). -/
def exportKind : Export → wasmer_import_export_kind
  | .function .. => .WASM_FUNCTION
  | .memory _ => .WASM_MEMORY
  | .table _ => .WASM_TABLE
  | .global _ => .WASM_GLOBAL

/-- The literal noun used in the source's kind-mismatch message
(`"Found function, ..."`, `"Found memory, ..."`, ...). -/
def foundNoun : Export → String
  | .function .. => "function"
  | .memory _ => "memory"
  | .table _ => "table"
  | .global _ => "global"

/-- Is the entity a `Export::Function { .. }`? -/
def isFunctionExport : Export → Bool
  | .function .. => true
  | _ => false

/-- An addressable cell behind a foreign value-slot pointer: either a boxed
`Export` (the function path) or a bare `Memory` / `Table` / `Global` handle. -/
inductive HeapCell
  | exportCell (e : Export)
  | memoryCell (handle : Nat)
  | tableCell (handle : Nat)
  | globalCell (handle : Nat)
deriving DecidableEq, Repr

/-- Modelled from the spec: `wasmer_runtime_core::import::ImportObject` is an
external collaborator; the registry is a namespace-and-name keyed mapping to
entities, modelled as a flat association list where a later entry overrides
an earlier one with the same (namespace, name) key.  Keys are byte lists
(valid UTF-8 byte lists are in bijection with the strings they decode to). -/
abbrev ImportObject := List (List Nat × List Nat × Export)

/-- Modelled from the spec: registry lookup
(`maybe_with_namespace(ns, |n| n.get_export(name))`): the entity at the
(namespace, name) key, or not found; last write wins. -/
def lookupExport (obj : ImportObject) (ns name : List Nat) : Option Export :=
  (obj.reverse.find? fun e => e.1 == ns && e.2.1 == name).map (·.2.2)

/-- The number of Function-kind entries in a registry. -/
def countFunctions (obj : ImportObject) : Nat :=
  (obj.filter fun e => isFunctionExport e.2.2).length

/-- Is a byte within the UTF-8 continuation range `0x80..=0xBF`? -/
def utf8Cont (b : Nat) : Bool :=
  decide (0x80 ≤ b ∧ b < 0xC0)

/-- Constraint on the first continuation byte of a three-byte sequence
(excludes overlong encodings after `0xE0` and surrogates after `0xED`). -/
def utf8Lead3Cont (b c1 : Nat) : Bool :=
  if b = 0xE0 then decide (0xA0 ≤ c1 ∧ c1 < 0xC0)
  else if b = 0xED then decide (0x80 ≤ c1 ∧ c1 < 0xA0)
  else utf8Cont c1

/-- Constraint on the first continuation byte of a four-byte sequence
(excludes overlong encodings after `0xF0` and values past U+10FFFF
after `0xF4`). -/
def utf8Lead4Cont (b c1 : Nat) : Bool :=
  if b = 0xF0 then decide (0x90 ≤ c1 ∧ c1 < 0xC0)
  else if b = 0xF4 then decide (0x80 ≤ c1 ∧ c1 < 0x90)
  else utf8Cont c1

/-- UTF-8 validity of a byte sequence, as checked by `std::str::from_utf8` /
`wasmer_byte_array::as_str` (Rust standard library semantics: rejects
overlong forms, surrogates and code points above U+10FFFF). -/
def utf8Valid : List Nat → Bool
  | [] => true
  | b :: rest =>
    if b < 0x80 then utf8Valid rest
    else if b < 0xC2 then false
    else if b < 0xE0 then
      match rest with
      | [] => false
      | c1 :: rest2 => utf8Cont c1 && utf8Valid rest2
    else if b < 0xF0 then
      match rest with
      | c1 :: c2 :: rest2 => utf8Lead3Cont b c1 && utf8Cont c2 && utf8Valid rest2
      | _ => false
    else if b < 0xF5 then
      match rest with
      | c1 :: c2 :: c3 :: rest2 =>
        utf8Lead4Cont b c1 && utf8Cont c2 && utf8Cont c3 && utf8Valid rest2
      | _ => false
    else false

/-- Decoding of a (valid) UTF-8 byte sequence to characters; only used to
build the `not found` error message after validation has succeeded. -/
def utf8DecodeList : List Nat → List Char
  | [] => []
  | b :: rest =>
    if b < 0x80 then Char.ofNat b :: utf8DecodeList rest
    else if b < 0xE0 then
      match rest with
      | [] => []
      | c1 :: rest2 =>
        Char.ofNat ((b - 0xC0) * 64 + (c1 - 0x80)) :: utf8DecodeList rest2
    else if b < 0xF0 then
      match rest with
      | c1 :: c2 :: rest2 =>
        Char.ofNat ((b - 0xE0) * 4096 + (c1 - 0x80) * 64 + (c2 - 0x80)) ::
          utf8DecodeList rest2
      | _ => []
    else
      match rest with
      | c1 :: c2 :: c3 :: rest2 =>
        Char.ofNat ((b - 0xF0) * 262144 + (c1 - 0x80) * 4096 +
          (c2 - 0x80) * 64 + (c3 - 0x80)) :: utf8DecodeList rest2
      | _ => []

/-- String form of a validated byte sequence. -/
def utf8Decode (l : List Nat) : String :=
  String.mk (utf8DecodeList l)

/-- The C API's result code `wasmer_result_t`. -/
inductive wasmer_result_t
  | WASMER_OK
  | WASMER_ERROR
deriving DecidableEq, Repr

/-- The flat boundary record `wasmer_import_t`: namespace bytes, name bytes,
kind tag, and the tagged-union value slot (modelled as the address it
holds). -/
structure wasmer_import_t where
  module_name : List Nat
  import_name : List Nat
  tag : wasmer_import_export_kind
  value : Nat
deriving DecidableEq, Repr

/-- The observable outcome of `wasmer_import_object_get_import`: the result
code, the output record (`*import`), the value slot's contents
(`*import_export_value`, the union's pointer payload), the heap of
addressable cells, and the last-error message when one was recorded. -/
structure GetImportResult where
  ret : wasmer_result_t
  record : wasmer_import_t
  slot : Nat
  heap : List HeapCell
  err : Option String
deriving DecidableEq, Repr

/-- `wasmer_import_object_get_import`: decode the expected-kind tag, decode
the namespace and name bytes as UTF-8, look the entity up, check its kind
against the tag, and on success write the clone through the pointer the
caller pre-initialized the value slot with, then fill the output record
with the tag, the copied slot and the namespace/name bytes. -/
def wasmer_import_object_get_import (obj : ImportObject)
    (ns name : List Nat) (import0 : wasmer_import_t) (slot : Nat)
    (heap : List HeapCell) (tag : Nat) : GetImportResult :=
  match decodeKind tag with
  | none =>
    ⟨.WASMER_ERROR, import0, slot, heap,
      some "wasmer_import_export_tag out of range"⟩
  | some tagK =>
    if utf8Valid ns then
      if utf8Valid name then
        match lookupExport obj ns name with
        | some exp =>
          match exp with
          | .function f c s =>
            if tagK ≠ .WASM_FUNCTION then
              ⟨.WASMER_ERROR, import0, slot, heap,
                some ("Found function, expected " ++ kindToStr tagK)⟩
            else
              ⟨.WASMER_OK,
                ⟨ns, name, .WASM_FUNCTION, slot⟩, slot,
                heap.set slot (.exportCell (.function f c s)), none⟩
          | .memory m =>
            if tagK ≠ .WASM_MEMORY then
              ⟨.WASMER_ERROR, import0, slot, heap,
                some ("Found memory, expected " ++ kindToStr tagK)⟩
            else
              ⟨.WASMER_OK,
                ⟨ns, name, .WASM_MEMORY, slot⟩, slot,
                heap.set slot (.memoryCell m), none⟩
          | .table t =>
            if tagK ≠ .WASM_TABLE then
              ⟨.WASMER_ERROR, import0, slot, heap,
                some ("Found table, expected " ++ kindToStr tagK)⟩
            else
              ⟨.WASMER_OK,
                ⟨ns, name, .WASM_TABLE, slot⟩, slot,
                heap.set slot (.tableCell t), none⟩
          | .global g =>
            if tagK ≠ .WASM_GLOBAL then
              ⟨.WASMER_ERROR, import0, slot, heap,
                some ("Found global, expected " ++ kindToStr tagK)⟩
            else
              ⟨.WASMER_OK,
                ⟨ns, name, .WASM_GLOBAL, slot⟩, slot,
                heap.set slot (.globalCell g), none⟩
        | none =>
          ⟨.WASMER_ERROR, import0, slot, heap,
            some ("Export " ++ utf8Decode ns ++ " " ++ utf8Decode name
              ++ " not found")⟩
      else
        ⟨.WASMER_ERROR, import0, slot, heap,
          some "error converting name to UTF-8 string"⟩
    else
      ⟨.WASMER_ERROR, import0, slot, heap,
        some "error converting namespace to UTF-8 string"⟩

/-- The observable outcome of `wasmer_import_object_get_functions`: the
returned count, the heap after the fresh per-entry boxed clones, and the
ordered list of (buffer index, record) writes performed. -/
structure GetFunctionsResult where
  count : Nat
  heap : List HeapCell
  writes : List (Nat × wasmer_import_t)
deriving DecidableEq, Repr

/-- The enumeration loop of `wasmer_import_object_get_functions`: walk the
registry entries; before examining each entry, stop and report `i` once
`i + 1 > imports_len`; a Function entry is written to buffer index `i` with
freshly boxed namespace/name bytes and a boxed entity clone, incrementing
`i`; every other entry is skipped. -/
def get_functions_loop (imports_len : Nat) :
    ImportObject → Nat → List HeapCell → List (Nat × wasmer_import_t) →
    GetFunctionsResult
  | [], i, heap, writes => ⟨i, heap, writes⟩
  | (ns, name, exp) :: rest, i, heap, writes =>
    if imports_len < i + 1 then ⟨i, heap, writes⟩
    else
      match exp with
      | .function f c s =>
        let addr := heap.length
        let entry : wasmer_import_t := ⟨ns, name, .WASM_FUNCTION, addr⟩
        get_functions_loop imports_len rest (i + 1)
          (heap ++ [.exportCell (.function f c s)]) (writes ++ [(i, entry)])
      | _ => get_functions_loop imports_len rest i heap writes

/-- `wasmer_import_object_get_functions`: enumerate the registry's
Function-kind entries into a caller buffer of capacity `imports_len`,
returning the count written. -/
def wasmer_import_object_get_functions (obj : ImportObject)
    (imports_len : Nat) (heap : List HeapCell) : GetFunctionsResult :=
  get_functions_loop imports_len obj 0 heap []

/-- Reading `import.value.memory as *mut Memory` and cloning: extracts the
handle behind the address; dereferencing a cell of the wrong shape is
undefined behavior in the C source and is given an arbitrary value here. -/
def derefMemory (heap : List HeapCell) (addr : Nat) : Nat :=
  match heap.getD addr (.memoryCell 0) with
  | .memoryCell m => m
  | _ => 0

/-- Reading `import.value.table as *mut Table` and cloning. -/
def derefTable (heap : List HeapCell) (addr : Nat) : Nat :=
  match heap.getD addr (.tableCell 0) with
  | .tableCell t => t
  | _ => 0

/-- Reading `import.value.global as *mut Global` and cloning. -/
def derefGlobal (heap : List HeapCell) (addr : Nat) : Nat :=
  match heap.getD addr (.globalCell 0) with
  | .globalCell g => g
  | _ => 0

/-- Reading `import.value.func as *mut Export` and cloning. -/
def derefExport (heap : List HeapCell) (addr : Nat) : Export :=
  match heap.getD addr (.exportCell (.memory 0)) with
  | .exportCell e => e
  | _ => .memory 0

/-- The record-conversion loop of `wasmer_import_object_extend`: decode each
record's namespace and name as UTF-8 (failing the whole call on the first
invalid one), reconstruct its entity by switching on the kind tag, and
collect the (namespace, name, entity) extensions in order. -/
def extend_loop (heap : List HeapCell) :
    List wasmer_import_t → List (List Nat × List Nat × Export) →
    Except String (List (List Nat × List Nat × Export))
  | [], extensions => .ok extensions
  | record :: rest, extensions =>
    if utf8Valid record.module_name then
      if utf8Valid record.import_name then
        let exp : Export :=
          match record.tag with
          | .WASM_MEMORY => .memory (derefMemory heap record.value)
          | .WASM_FUNCTION => derefExport heap record.value
          | .WASM_GLOBAL => .global (derefGlobal heap record.value)
          | .WASM_TABLE => .table (derefTable heap record.value)
        extend_loop heap rest
          (extensions ++ [(record.module_name, record.import_name, exp)])
      else .error "error converting import_name to string"
    else .error "error converting module name to string"

/-- `wasmer_import_object_extend`: convert and collect every input record
first, then merge the collected extensions into the registry in one call
(`import_object.extend(extensions)`, modelled per the spec's last-write-wins
merge as appending to the association list); any conversion failure returns
the error before the registry is touched. -/
def wasmer_import_object_extend (obj : ImportObject) (heap : List HeapCell)
    (records : List wasmer_import_t) :
    wasmer_result_t × ImportObject × Option String :=
  match extend_loop heap records [] with
  | .ok extensions => (.WASMER_OK, obj ++ extensions, none)
  | .error msg => (.WASMER_ERROR, obj, some msg)

/-- `wasmer_runtime_core::module::ImportName`: a pair of indices into the
module's interned namespace and name string tables. -/
structure ImportName where
  namespace_index : Nat
  name_index : Nat
deriving DecidableEq, Repr

/-- Modelled from the spec: the slice of `ModuleInfo` consumed by
`wasmer_import_descriptors` (the `Module` collaborator is external to the
embedded file): the four ordered import tables, each entry carrying the
interned indices (the non-`ImportName` components of table, global and
memory import entries are irrelevant here and elided), and the two
interned string tables, indexed by those integers. -/
structure ModuleInfo where
  imported_functions : List ImportName
  imported_tables : List ImportName
  imported_globals : List ImportName
  imported_memories : List ImportName
  namespace_table : List String
  name_table : List String
deriving Repr

/-- `NamedImportDescriptor`: owned module name, owned field name, kind. -/
structure NamedImportDescriptor where
  module : String
  name : String
  kind : wasmer_import_export_kind
deriving DecidableEq, Repr

/-- Resolution of one import-table entry against the interned string
tables (`StringTable::get`, a bounds-checked lookup, modelled with an empty
default), producing one owned descriptor. -/
def resolveDescriptor (m : ModuleInfo) (imp : ImportName)
    (k : wasmer_import_export_kind) : NamedImportDescriptor :=
  ⟨m.namespace_table.getD imp.namespace_index "",
   m.name_table.getD imp.name_index "", k⟩

/-- `wasmer_import_descriptors`: walk the module's four import tables in the
fixed order functions, tables, globals, memories, resolving each entry's
interned indices into owned strings and appending one descriptor per entry
to a single ordered list. -/
def wasmer_import_descriptors (m : ModuleInfo) : List NamedImportDescriptor :=
  (m.imported_functions.map fun imp => resolveDescriptor m imp .WASM_FUNCTION)
    ++ (m.imported_tables.map fun imp => resolveDescriptor m imp .WASM_TABLE)
    ++ (m.imported_globals.map fun imp => resolveDescriptor m imp .WASM_GLOBAL)
    ++ (m.imported_memories.map fun imp => resolveDescriptor m imp .WASM_MEMORY)

/-- `wasmer_import_descriptors_len`. -/
def wasmer_import_descriptors_len (ds : List NamedImportDescriptor) : Nat :=
  ds.length

/-- `wasmer_import_func_new`: build a heap-boxed Function entity from a raw
invocable pointer and the foreign parameter/return scalar-type tag
sequences; the calling context is `Context::Internal`. -/
def wasmer_import_func_new (func : Nat) (params : List wasmer_value_tag)
    (returns : List wasmer_value_tag) : Export :=
  .function func .internal
    ⟨params.map valueTagToType, returns.map valueTagToType⟩

/-- `wasmer_import_func_params_arity`: the result code, the contents of the
caller's `result` slot after the call (unchanged from `result0` on
failure), and the last-error message when one was recorded. -/
def wasmer_import_func_params_arity (f : Export) (result0 : Nat) :
    wasmer_result_t × Nat × Option String :=
  match f with
  | .function _ _ signature =>
    (.WASMER_OK, signature.params.length, none)
  | _ =>
    (.WASMER_ERROR, result0,
      some "func ptr error in wasmer_import_func_params_arity")

/-- `wasmer_import_func_returns_arity` (note the source's message says
`results_arity`). -/
def wasmer_import_func_returns_arity (f : Export) (result0 : Nat) :
    wasmer_result_t × Nat × Option String :=
  match f with
  | .function _ _ signature =>
    (.WASMER_OK, signature.returns.length, none)
  | _ =>
    (.WASMER_ERROR, result0,
      some "func ptr error in wasmer_import_func_results_arity")

/-- Outcome of an operation that indexes a caller buffer: either a normal
outcome, or an out-of-bounds index (a Rust bounds-check failure on the
slice built from the caller's claimed length). -/
inductive PanicOr (α : Type)
  | ok (a : α)
  | indexOutOfBounds
deriving DecidableEq, Repr

/-- The copy loop of `wasmer_import_func_params` / `_returns`:
`for (i, item) in items.enumerate() { buffer[i] = item; }` over a slice of
the caller-claimed length; indexing at or past that length is a
bounds-check failure. -/
def writeLoop (buffer : List wasmer_value_tag) :
    List wasmer_value_tag → Nat → PanicOr (List wasmer_value_tag)
  | [], _ => .ok buffer
  | item :: rest, i =>
    if i < buffer.length then writeLoop (buffer.set i item) rest (i + 1)
    else .indexOutOfBounds

/-- `wasmer_import_func_params`: on a Function entity, copy the
parameter-type tags into the caller's buffer of claimed length
`buffer0.length`, without consulting that length to bound the copy; on any
other entity, fail and leave the buffer untouched. -/
def wasmer_import_func_params (f : Export)
    (buffer0 : List wasmer_value_tag) :
    PanicOr (wasmer_result_t × List wasmer_value_tag × Option String) :=
  match f with
  | .function _ _ signature =>
    match writeLoop buffer0 (signature.params.map typeToValueTag) 0 with
    | .ok buffer => .ok (.WASMER_OK, buffer, none)
    | .indexOutOfBounds => .indexOutOfBounds
  | _ =>
    .ok (.WASMER_ERROR, buffer0,
      some "func ptr error in wasmer_import_func_params")

/-- `wasmer_import_func_returns`: as `wasmer_import_func_params`, for the
return-type tags. -/
def wasmer_import_func_returns (f : Export)
    (buffer0 : List wasmer_value_tag) :
    PanicOr (wasmer_result_t × List wasmer_value_tag × Option String) :=
  match f with
  | .function _ _ signature =>
    match writeLoop buffer0 (signature.returns.map typeToValueTag) 0 with
    | .ok buffer => .ok (.WASMER_OK, buffer, none)
    | .indexOutOfBounds => .indexOutOfBounds
  | _ =>
    .ok (.WASMER_ERROR, buffer0,
      some "func ptr error in wasmer_import_func_returns")

/-- The heap cell written through the value-slot pointer by the success path
of `wasmer_import_object_get_import`: the function arm stores the cloned
`Export` itself, the other arms store the bare cloned handle. -/
def cellOf : Export → HeapCell
  | .function f c s => .exportCell (.function f c s)
  | .memory m => .memoryCell m
  | .table t => .tableCell t
  | .global g => .globalCell g

/- ===== Helper lemmas ===== -/

theorem typeToValueTag_valueTagToType (t : wasmer_value_tag) :
    typeToValueTag (valueTagToType t) = t := by
  cases t <;> rfl

theorem map_roundtrip (l : List wasmer_value_tag) :
    (l.map valueTagToType).map typeToValueTag = l := by
  rw [List.map_map]
  conv_rhs => rw [← List.map_id l]
  exact List.map_congr_left fun t _ => typeToValueTag_valueTagToType t

theorem writeLoop_ok (items : List wasmer_value_tag) :
    ∀ (buffer : List wasmer_value_tag) (i : Nat),
      i + items.length ≤ buffer.length →
      writeLoop buffer items i =
        .ok (buffer.take i ++ items ++ buffer.drop (i + items.length)) := by
  induction items with
  | nil =>
    intro buffer i h
    simp [writeLoop]
  | cons item rest ih =>
    intro buffer i h
    have hi : i < buffer.length := by
      simp only [List.length_cons] at h; omega
    rw [writeLoop, if_pos hi, ih (buffer.set i item) (i + 1)
      (by simp only [List.length_set, List.length_cons] at h ⊢; omega)]
    have htake : (buffer.set i item).take (i + 1) = buffer.take i ++ [item] := by
      rw [List.take_succ, List.set_take,
        List.set_eq_of_length_le (by simp [List.length_take]),
        List.getElem?_set_self hi]
      rfl
    have hdrop : (buffer.set i item).drop (i + 1 + rest.length) =
        buffer.drop (i + 1 + rest.length) := by
      rw [List.drop_set, if_pos (by omega)]
    rw [htake, hdrop]
    have harith : i + (item :: rest).length = i + 1 + rest.length := by
      simp only [List.length_cons]; omega
    rw [harith]
    simp [List.append_assoc]

theorem writeLoop_eq_oob_iff (items : List wasmer_value_tag) :
    ∀ (buffer : List wasmer_value_tag) (i : Nat),
      writeLoop buffer items i = .indexOutOfBounds ↔
        (items ≠ [] ∧ buffer.length < i + items.length) := by
  induction items with
  | nil =>
    intro buffer i
    simp [writeLoop]
  | cons item rest ih =>
    intro buffer i
    rw [writeLoop]
    by_cases hi : i < buffer.length
    · rw [if_pos hi, ih]
      simp only [List.length_set, ne_eq, List.length_cons]
      constructor
      · rintro ⟨-, h2⟩
        exact ⟨by simp, by omega⟩
      · rintro ⟨-, h2⟩
        refine ⟨?_, by omega⟩
        intro hnil
        subst hnil
        simp at h2
        omega
    · rw [if_neg hi]
      simp only [ne_eq, List.length_cons, true_iff, reduceCtorEq]
      refine ⟨by simp, ?_⟩
      omega

theorem countFunctions_cons (ns name : List Nat) (e : Export)
    (rest : ImportObject) :
    countFunctions ((ns, name, e) :: rest) =
      (if isFunctionExport e then 1 else 0) + countFunctions rest := by
  by_cases h : isFunctionExport e <;>
    simp [countFunctions, List.filter_cons, h, Nat.add_comm]

theorem get_functions_loop_cons_stop (len : Nat) (ns name : List Nat)
    (e : Export) (rest : ImportObject) (i : Nat) (heap : List HeapCell)
    (writes : List (Nat × wasmer_import_t)) (hlt : len < i + 1) :
    get_functions_loop len ((ns, name, e) :: rest) i heap writes =
      ⟨i, heap, writes⟩ := by
  cases e <;> simp [get_functions_loop, hlt]

theorem get_functions_loop_cons_fun (len : Nat) (ns name : List Nat)
    (f : Nat) (c : Context) (s : FuncSig) (rest : ImportObject) (i : Nat)
    (heap : List HeapCell) (writes : List (Nat × wasmer_import_t))
    (hlt : ¬ len < i + 1) :
    get_functions_loop len ((ns, name, .function f c s) :: rest) i heap
        writes =
      get_functions_loop len rest (i + 1)
        (heap ++ [.exportCell (.function f c s)])
        (writes ++ [(i, ⟨ns, name, .WASM_FUNCTION, heap.length⟩)]) := by
  simp [get_functions_loop, hlt]

theorem get_functions_loop_cons_skip (len : Nat) (ns name : List Nat)
    (e : Export) (rest : ImportObject) (i : Nat) (heap : List HeapCell)
    (writes : List (Nat × wasmer_import_t)) (hlt : ¬ len < i + 1)
    (he : isFunctionExport e = false) :
    get_functions_loop len ((ns, name, e) :: rest) i heap writes =
      get_functions_loop len rest i heap writes := by
  cases e <;> simp_all [get_functions_loop, isFunctionExport, hlt]

theorem get_functions_loop_trunc (len : Nat) :
    ∀ (entries : ImportObject) (i : Nat) (heap : List HeapCell)
      (writes : List (Nat × wasmer_import_t)),
      i ≤ len → len - i < countFunctions entries →
      ∃ extra,
        (get_functions_loop len entries i heap writes).count = len ∧
        (get_functions_loop len entries i heap writes).writes =
          writes ++ extra ∧
        extra.map Prod.fst = List.range' i (len - i) ∧
        ∀ w ∈ extra, w.2.tag = wasmer_import_export_kind.WASM_FUNCTION := by
  intro entries
  induction entries with
  | nil =>
    intro i heap writes h1 h2
    simp [countFunctions] at h2
  | cons entry rest ih =>
    obtain ⟨ns, name, e⟩ := entry
    intro i heap writes h1 h2
    by_cases hlt : len < i + 1
    · have hi : i = len := by omega
      rw [get_functions_loop_cons_stop len ns name e rest i heap writes hlt]
      exact ⟨[], hi, by simp, by simp [hi, List.range'], by simp⟩
    · rw [countFunctions_cons] at h2
      by_cases he : isFunctionExport e
      · obtain ⟨f, c, s, rfl⟩ : ∃ f c s, e = .function f c s := by
          cases e <;> simp_all [isFunctionExport]
        rw [if_pos he] at h2
        obtain ⟨extra', hcount, hwrites, hmap, htags⟩ :=
          ih (i + 1) (heap ++ [.exportCell (.function f c s)])
            (writes ++ [(i, ⟨ns, name, .WASM_FUNCTION, heap.length⟩)])
            (by omega) (by omega)
        rw [get_functions_loop_cons_fun len ns name f c s rest i heap writes
          hlt]
        refine ⟨(i, ⟨ns, name, .WASM_FUNCTION, heap.length⟩) :: extra',
          hcount, ?_, ?_, ?_⟩
        · rw [hwrites]; simp
        · have hn : len - i = (len - (i + 1)) + 1 := by omega
          rw [hn, List.range'_succ]
          simp [hmap]
        · intro w hw
          rcases List.mem_cons.mp hw with hw | hw
          · subst hw; rfl
          · exact htags w hw
      · rw [if_neg he, Nat.zero_add] at h2
        obtain ⟨extra', hcount, hwrites, hmap, htags⟩ :=
          ih i heap writes h1 h2
        rw [get_functions_loop_cons_skip len ns name e rest i heap writes hlt
          (by simpa using he)]
        exact ⟨extra', hcount, hwrites, hmap, htags⟩

theorem extend_loop_error (heap : List HeapCell) :
    ∀ (records : List wasmer_import_t)
      (extensions : List (List Nat × List Nat × Export)),
      (∃ r ∈ records, utf8Valid r.module_name = false ∨
        utf8Valid r.import_name = false) →
      ∃ msg, extend_loop heap records extensions = .error msg ∧
        (msg = "error converting module name to string" ∨
          msg = "error converting import_name to string") := by
  intro records
  induction records with
  | nil =>
    rintro extensions ⟨r, hr, -⟩
    exact absurd hr (List.not_mem_nil r)
  | cons record rest ih =>
    rintro extensions ⟨r, hr, hbad⟩
    by_cases hm : utf8Valid record.module_name
    · by_cases hn : utf8Valid record.import_name
      · rcases List.mem_cons.mp hr with hre | hre
        · subst hre
          rcases hbad with hbad | hbad
          · rw [hm] at hbad; cases hbad
          · rw [hn] at hbad; cases hbad
        · rw [extend_loop, if_pos hm, if_pos hn]
          exact ih _ ⟨r, hre, hbad⟩
      · refine ⟨"error converting import_name to string", ?_, Or.inr rfl⟩
        rw [extend_loop, if_pos hm, if_neg hn]
    · refine ⟨"error converting module name to string", ?_, Or.inl rfl⟩
      rw [extend_loop, if_neg hm]

theorem writeLoop_zero (items buffer0 : List wasmer_value_tag) :
    writeLoop buffer0 items 0 =
      if items.length ≤ buffer0.length then
        .ok (items ++ buffer0.drop items.length)
      else .indexOutOfBounds := by
  by_cases h : items.length ≤ buffer0.length
  · rw [if_pos h, writeLoop_ok items buffer0 0 (by omega)]
    simp
  · rw [if_neg h]
    refine (writeLoop_eq_oob_iff items buffer0 0).mpr ⟨?_, by omega⟩
    intro hnil
    subst hnil
    simp at h

theorem get_import_found_match (obj : ImportObject) (ns name : List Nat)
    (import0 : wasmer_import_t) (slot : Nat) (heap : List HeapCell)
    (tag : Nat) (tagK : wasmer_import_export_kind) (e : Export)
    (hdec : decodeKind tag = some tagK)
    (hns : utf8Valid ns = true) (hname : utf8Valid name = true)
    (hfound : lookupExport obj ns name = some e)
    (hkind : exportKind e = tagK) :
    wasmer_import_object_get_import obj ns name import0 slot heap tag =
      ⟨.WASMER_OK, ⟨ns, name, tagK, slot⟩, slot,
        heap.set slot (cellOf e), none⟩ := by
  subst hkind
  cases e <;>
    simp [wasmer_import_object_get_import, hdec, hns, hname, hfound,
      cellOf, exportKind]

theorem lookupExport_singleton (ns name : List Nat) (e : Export) :
    lookupExport [(ns, name, e)] ns name = some e := by
  simp [lookupExport]

/- ===== Claim theorems ===== -/

/-- C1: for every registry containing an entity at (namespace, name) and
every expected kind tag different from that entity's actual kind,
`wasmer_import_object_get_import` returns the error result with a
kind-mismatch message naming the found and the expected kind, and leaves
the output record, the caller's value slot and the heap exactly as they
were before the call. -/
theorem c1_kind_mismatch_no_write (obj : ImportObject) (ns name : List Nat)
    (import0 : wasmer_import_t) (slot : Nat) (heap : List HeapCell)
    (tag : Nat) (tagK : wasmer_import_export_kind) (e : Export)
    (hdec : decodeKind tag = some tagK)
    (hns : utf8Valid ns = true) (hname : utf8Valid name = true)
    (hfound : lookupExport obj ns name = some e)
    (hkind : exportKind e ≠ tagK) :
    wasmer_import_object_get_import obj ns name import0 slot heap tag =
      ⟨.WASMER_ERROR, import0, slot, heap,
        some ("Found " ++ foundNoun e ++ ", expected " ++ kindToStr tagK)⟩ := by
  cases e with
  | function f c s =>
    have h' : tagK ≠ wasmer_import_export_kind.WASM_FUNCTION :=
      fun h => hkind (by simp [exportKind, h])
    simp [wasmer_import_object_get_import, hdec, hns, hname, hfound,
      foundNoun, h']
  | memory m =>
    have h' : tagK ≠ wasmer_import_export_kind.WASM_MEMORY :=
      fun h => hkind (by simp [exportKind, h])
    simp [wasmer_import_object_get_import, hdec, hns, hname, hfound,
      foundNoun, h']
  | table t =>
    have h' : tagK ≠ wasmer_import_export_kind.WASM_TABLE :=
      fun h => hkind (by simp [exportKind, h])
    simp [wasmer_import_object_get_import, hdec, hns, hname, hfound,
      foundNoun, h']
  | global g =>
    have h' : tagK ≠ wasmer_import_export_kind.WASM_GLOBAL :=
      fun h => hkind (by simp [exportKind, h])
    simp [wasmer_import_object_get_import, hdec, hns, hname, hfound,
      foundNoun, h']

/-- C1 witness: a registry holding a memory at ("e", "f"), asked for a
function (tag 0), errors with the message naming both kinds and leaves the
record, slot and heap untouched. -/
theorem c1_kind_mismatch_no_write_witness :
    decodeKind 0 = some .WASM_FUNCTION ∧
    utf8Valid [101] = true ∧
    utf8Valid [102] = true ∧
    lookupExport [([101], [102], .memory 7)] [101] [102] =
      some (.memory 7) ∧
    exportKind (.memory 7) ≠ .WASM_FUNCTION ∧
    wasmer_import_object_get_import [([101], [102], .memory 7)] [101] [102]
        ⟨[103], [104], .WASM_TABLE, 42⟩ 9 [.memoryCell 0] 0 =
      ⟨.WASMER_ERROR, ⟨[103], [104], .WASM_TABLE, 42⟩, 9, [.memoryCell 0],
        some ("Found " ++ foundNoun (.memory 7) ++ ", expected "
          ++ kindToStr .WASM_FUNCTION)⟩ :=
  ⟨rfl, rfl, rfl, rfl, by decide,
    c1_kind_mismatch_no_write [([101], [102], .memory 7)] [101] [102]
      ⟨[103], [104], .WASM_TABLE, 42⟩ 9 [.memoryCell 0] 0 .WASM_FUNCTION
      (.memory 7) rfl rfl rfl rfl (by decide)⟩

/-- C10: for every integer tag that decodes to none of the four entity
kinds, `wasmer_import_object_get_import` errors with an out-of-range
message, leaves the output record, value slot and heap unmodified, and its
outcome does not depend on the registry at all (no lookup is performed). -/
theorem c10_invalid_tag_rejected (obj : ImportObject) (ns name : List Nat)
    (import0 : wasmer_import_t) (slot : Nat) (heap : List HeapCell)
    (tag : Nat) (hdec : decodeKind tag = none) :
    wasmer_import_object_get_import obj ns name import0 slot heap tag =
      ⟨.WASMER_ERROR, import0, slot, heap,
        some "wasmer_import_export_tag out of range"⟩ ∧
    ∀ obj' : ImportObject,
      wasmer_import_object_get_import obj' ns name import0 slot heap tag =
        wasmer_import_object_get_import obj ns name import0 slot heap tag := by
  constructor
  · simp [wasmer_import_object_get_import, hdec]
  · intro obj'
    simp [wasmer_import_object_get_import, hdec]

/-- C10 witness: tag 7 is rejected before any lookup, with the registry,
record, slot and heap left untouched. -/
theorem c10_invalid_tag_rejected_witness :
    decodeKind 7 = none ∧
    (wasmer_import_object_get_import [([101], [102], .memory 7)] [101] [102]
        ⟨[103], [104], .WASM_TABLE, 42⟩ 9 [.memoryCell 0] 7 =
      ⟨.WASMER_ERROR, ⟨[103], [104], .WASM_TABLE, 42⟩, 9, [.memoryCell 0],
        some "wasmer_import_export_tag out of range"⟩ ∧
    ∀ obj' : ImportObject,
      wasmer_import_object_get_import obj' [101] [102]
          ⟨[103], [104], .WASM_TABLE, 42⟩ 9 [.memoryCell 0] 7 =
        wasmer_import_object_get_import [([101], [102], .memory 7)] [101]
          [102] ⟨[103], [104], .WASM_TABLE, 42⟩ 9 [.memoryCell 0] 7) :=
  ⟨rfl,
    c10_invalid_tag_rejected [([101], [102], .memory 7)] [101] [102]
      ⟨[103], [104], .WASM_TABLE, 42⟩ 9 [.memoryCell 0] 7 rfl⟩

/-- C5, counterexample to the claim as stated: at a successful kind-matched
lookup (a function at ("e", "f") requested with tag 0, heap of two cells,
slot pointing at cell 0), the claim predicts a newly heap-boxed clone with
the value slot updated to point at it — the heap would grow to 3 cells and
the slot would hold the fresh address 2.  The code instead leaves the heap
at 2 cells and the slot at address 0: it writes the clone through the
pointer the slot already held. -/
theorem c5_counterexample :
    (wasmer_import_object_get_import
        [([101], [102], .function 5 .internal ⟨[], []⟩)] [101] [102]
        ⟨[], [], .WASM_FUNCTION, 99⟩ 0 [.memoryCell 0, .memoryCell 1]
        0).ret = .WASMER_OK ∧
    (wasmer_import_object_get_import
        [([101], [102], .function 5 .internal ⟨[], []⟩)] [101] [102]
        ⟨[], [], .WASM_FUNCTION, 99⟩ 0 [.memoryCell 0, .memoryCell 1]
        0).slot = 0 ∧
    (wasmer_import_object_get_import
        [([101], [102], .function 5 .internal ⟨[], []⟩)] [101] [102]
        ⟨[], [], .WASM_FUNCTION, 99⟩ 0 [.memoryCell 0, .memoryCell 1]
        0).heap.length = 2 ∧
    ¬((wasmer_import_object_get_import
        [([101], [102], .function 5 .internal ⟨[], []⟩)] [101] [102]
        ⟨[], [], .WASM_FUNCTION, 99⟩ 0 [.memoryCell 0, .memoryCell 1]
        0).heap.length = 2 + 1 ∧
      (wasmer_import_object_get_import
        [([101], [102], .function 5 .internal ⟨[], []⟩)] [101] [102]
        ⟨[], [], .WASM_FUNCTION, 99⟩ 0 [.memoryCell 0, .memoryCell 1]
        0).slot = 2) := by
  decide

/-- C5 (amended): for every successful kind-matched lookup,
`wasmer_import_object_get_import` clones the found entity and writes the
clone into the heap cell whose address the caller-initialized value slot
already holds — the slot's pointer is unchanged and nothing is newly
allocated — then writes the kind tag, the copied value slot and the
namespace/name bytes into the output record. -/
theorem c5_clone_written_through_slot (obj : ImportObject)
    (ns name : List Nat) (import0 : wasmer_import_t) (slot : Nat)
    (heap : List HeapCell) (tag : Nat)
    (tagK : wasmer_import_export_kind) (e : Export)
    (hdec : decodeKind tag = some tagK)
    (hns : utf8Valid ns = true) (hname : utf8Valid name = true)
    (hfound : lookupExport obj ns name = some e)
    (hkind : exportKind e = tagK) :
    wasmer_import_object_get_import obj ns name import0 slot heap tag =
      ⟨.WASMER_OK, ⟨ns, name, tagK, slot⟩, slot,
        heap.set slot (cellOf e), none⟩ :=
  get_import_found_match obj ns name import0 slot heap tag tagK e hdec hns
    hname hfound hkind

/-- C5 witness: the successful function lookup of the counterexample,
through the amended statement: the clone lands in cell 0 (the address the
slot held), the slot stays 0, the heap keeps its two cells. -/
theorem c5_clone_written_through_slot_witness :
    decodeKind 0 = some .WASM_FUNCTION ∧
    utf8Valid [101] = true ∧
    utf8Valid [102] = true ∧
    lookupExport [([101], [102], .function 5 .internal ⟨[], []⟩)] [101]
      [102] = some (.function 5 .internal ⟨[], []⟩) ∧
    exportKind (.function 5 .internal ⟨[], []⟩) = .WASM_FUNCTION ∧
    wasmer_import_object_get_import
        [([101], [102], .function 5 .internal ⟨[], []⟩)] [101] [102]
        ⟨[], [], .WASM_FUNCTION, 99⟩ 0 [.memoryCell 0, .memoryCell 1] 0 =
      ⟨.WASMER_OK, ⟨[101], [102], .WASM_FUNCTION, 0⟩, 0,
        ([.memoryCell 0, .memoryCell 1].set 0
          (cellOf (.function 5 .internal ⟨[], []⟩))), none⟩ :=
  ⟨rfl, rfl, rfl, rfl, rfl,
    c5_clone_written_through_slot
      [([101], [102], .function 5 .internal ⟨[], []⟩)] [101] [102]
      ⟨[], [], .WASM_FUNCTION, 99⟩ 0 [.memoryCell 0, .memoryCell 1] 0
      .WASM_FUNCTION (.function 5 .internal ⟨[], []⟩) rfl rfl rfl rfl rfl⟩

/-- C2: for every module, `wasmer_import_descriptors` produces a descriptor
list whose length is the sum of the four import tables' lengths, whose kind
tags are all the function imports first, then all table imports, then all
global imports, then all memory imports, each group in its table's
iteration order; in particular a module with 2 function, 1 table, 0 global
and 1 memory imports yields the kind sequence
[Function, Function, Table, Memory]. -/
theorem c2_descriptor_order :
    (∀ m : ModuleInfo,
      (wasmer_import_descriptors m).length =
        m.imported_functions.length + m.imported_tables.length +
          m.imported_globals.length + m.imported_memories.length ∧
      (wasmer_import_descriptors m).map NamedImportDescriptor.kind =
        List.replicate m.imported_functions.length .WASM_FUNCTION ++
          List.replicate m.imported_tables.length .WASM_TABLE ++
          List.replicate m.imported_globals.length .WASM_GLOBAL ++
          List.replicate m.imported_memories.length .WASM_MEMORY) ∧
    (wasmer_import_descriptors
        ⟨[⟨0, 0⟩, ⟨0, 1⟩], [⟨0, 2⟩], [], [⟨0, 3⟩], ["env"],
          ["a", "b", "c", "d"]⟩).map NamedImportDescriptor.kind =
      [.WASM_FUNCTION, .WASM_FUNCTION, .WASM_TABLE, .WASM_MEMORY] := by
  constructor
  · intro m
    constructor
    · simp [wasmer_import_descriptors]
      omega
    · simp [wasmer_import_descriptors, List.map_map, Function.comp_def,
        resolveDescriptor, List.map_const']
  · decide

/-- C3: for every registry holding more Function entries than the buffer
capacity C, `wasmer_import_object_get_functions` writes exactly C records,
returns C as the count, writes only at buffer indices 0..C-1 (in order),
and every record written carries the Function kind tag — non-function
entries are skipped without consuming buffer slots. -/
theorem c3_get_functions_truncation (obj : ImportObject) (C : Nat)
    (heap : List HeapCell) (hC : C < countFunctions obj) :
    (wasmer_import_object_get_functions obj C heap).count = C ∧
    (wasmer_import_object_get_functions obj C heap).writes.length = C ∧
    (wasmer_import_object_get_functions obj C heap).writes.map Prod.fst =
      List.range C ∧
    ∀ w ∈ (wasmer_import_object_get_functions obj C heap).writes,
      w.2.tag = wasmer_import_export_kind.WASM_FUNCTION := by
  obtain ⟨extra, hcount, hwrites, hmap, htags⟩ :=
    get_functions_loop_trunc C obj 0 heap [] (Nat.zero_le C)
      (by simpa using hC)
  have h0 : wasmer_import_object_get_functions obj C heap =
      get_functions_loop C obj 0 heap [] := rfl
  rw [List.nil_append] at hwrites
  rw [Nat.sub_zero] at hmap
  have hmap' : (get_functions_loop C obj 0 heap []).writes.map Prod.fst =
      List.range C := by
    rw [hwrites, hmap, List.range_eq_range']
  refine ⟨by rw [h0, hcount], ?_, by rw [h0, hmap'], ?_⟩
  · have := congrArg List.length hmap'
    simpa using this
  · intro w hw
    rw [h0, hwrites] at hw
    exact htags w hw

/-- C3 witness: a registry with two Function entries and capacity 1 writes
exactly one Function record at index 0 and reports 1. -/
theorem c3_get_functions_truncation_witness :
    1 < countFunctions [([1], [2], .function 0 .internal ⟨[], []⟩),
      ([1], [3], .function 0 .internal ⟨[], []⟩)] ∧
    ((wasmer_import_object_get_functions [([1], [2],
          .function 0 .internal ⟨[], []⟩),
        ([1], [3], .function 0 .internal ⟨[], []⟩)] 1 []).count = 1 ∧
      (wasmer_import_object_get_functions [([1], [2],
          .function 0 .internal ⟨[], []⟩),
        ([1], [3], .function 0 .internal ⟨[], []⟩)] 1 []).writes.length = 1 ∧
      (wasmer_import_object_get_functions [([1], [2],
          .function 0 .internal ⟨[], []⟩),
        ([1], [3], .function 0 .internal ⟨[], []⟩)] 1 []).writes.map
          Prod.fst = List.range 1 ∧
      ∀ w ∈ (wasmer_import_object_get_functions [([1], [2],
          .function 0 .internal ⟨[], []⟩),
        ([1], [3], .function 0 .internal ⟨[], []⟩)] 1 []).writes,
        w.2.tag = wasmer_import_export_kind.WASM_FUNCTION) :=
  ⟨by decide,
    c3_get_functions_truncation [([1], [2], .function 0 .internal ⟨[], []⟩),
      ([1], [3], .function 0 .internal ⟨[], []⟩)] 1 [] (by decide)⟩

/-- C4: constructing a Function entity from parameter tags P and return
tags R, inserting it into a registry, retrieving it through
`wasmer_import_object_get_import` with the Function tag (0), and reading
the retrieved entity back yields the arities |P| and |R| and exactly the
sequences P and R. -/
theorem c4_function_roundtrip (fp : Nat) (P R : List wasmer_value_tag)
    (ns name : List Nat) (import0 : wasmer_import_t) (slot : Nat)
    (heap : List HeapCell) (r0 : Nat)
    (hns : utf8Valid ns = true) (hname : utf8Valid name = true)
    (hslot : slot < heap.length) :
    (wasmer_import_object_get_import
        [(ns, name, wasmer_import_func_new fp P R)] ns name import0 slot
        heap 0).ret = .WASMER_OK ∧
    ∃ retrieved : Export,
      (wasmer_import_object_get_import
          [(ns, name, wasmer_import_func_new fp P R)] ns name import0 slot
          heap 0).heap[(wasmer_import_object_get_import
          [(ns, name, wasmer_import_func_new fp P R)] ns name import0 slot
          heap 0).record.value]? = some (.exportCell retrieved) ∧
      wasmer_import_func_params_arity retrieved r0 =
        (.WASMER_OK, P.length, none) ∧
      wasmer_import_func_returns_arity retrieved r0 =
        (.WASMER_OK, R.length, none) ∧
      (∀ buffer0 : List wasmer_value_tag, buffer0.length = P.length →
        wasmer_import_func_params retrieved buffer0 =
          .ok (.WASMER_OK, P, none)) ∧
      (∀ buffer0 : List wasmer_value_tag, buffer0.length = R.length →
        wasmer_import_func_returns retrieved buffer0 =
          .ok (.WASMER_OK, R, none)) := by
  have hout := get_import_found_match
    [(ns, name, wasmer_import_func_new fp P R)] ns name import0 slot heap 0
    .WASM_FUNCTION (wasmer_import_func_new fp P R) rfl hns hname
    (lookupExport_singleton ns name _) rfl
  rw [hout]
  refine ⟨rfl, wasmer_import_func_new fp P R, ?_, ?_, ?_, ?_, ?_⟩
  · show (heap.set slot (cellOf (wasmer_import_func_new fp P R)))[slot]? = _
    rw [List.getElem?_set_self hslot]
    rfl
  · simp [wasmer_import_func_params_arity, wasmer_import_func_new]
  · simp [wasmer_import_func_returns_arity, wasmer_import_func_new]
  · intro buffer0 hlen
    simp only [wasmer_import_func_new, wasmer_import_func_params,
      map_roundtrip, writeLoop_zero]
    rw [if_pos (by omega)]
    rw [← hlen, List.drop_length]
    simp
  · intro buffer0 hlen
    simp only [wasmer_import_func_new, wasmer_import_func_returns,
      map_roundtrip, writeLoop_zero]
    rw [if_pos (by omega)]
    rw [← hlen, List.drop_length]
    simp

/-- C4 witness: a function with one i32 parameter and one f64 return,
inserted at ("e", "f") and retrieved with tag 0, reads back arities 1 and 1
and exactly the constructed tag sequences. -/
theorem c4_function_roundtrip_witness :
    utf8Valid [101] = true ∧
    utf8Valid [102] = true ∧
    0 < ([HeapCell.memoryCell 9] : List HeapCell).length ∧
    ((wasmer_import_object_get_import
        [([101], [102], wasmer_import_func_new 3 [.WASM_I32] [.WASM_F64])]
        [101] [102] ⟨[], [], .WASM_FUNCTION, 0⟩ 0 [.memoryCell 9]
        0).ret = .WASMER_OK ∧
    ∃ retrieved : Export,
      (wasmer_import_object_get_import
          [([101], [102], wasmer_import_func_new 3 [.WASM_I32] [.WASM_F64])]
          [101] [102] ⟨[], [], .WASM_FUNCTION, 0⟩ 0 [.memoryCell 9]
          0).heap[(wasmer_import_object_get_import
          [([101], [102], wasmer_import_func_new 3 [.WASM_I32] [.WASM_F64])]
          [101] [102] ⟨[], [], .WASM_FUNCTION, 0⟩ 0 [.memoryCell 9]
          0).record.value]? = some (.exportCell retrieved) ∧
      wasmer_import_func_params_arity retrieved 5 =
        (.WASMER_OK, ([wasmer_value_tag.WASM_I32] : List _).length, none) ∧
      wasmer_import_func_returns_arity retrieved 5 =
        (.WASMER_OK, ([wasmer_value_tag.WASM_F64] : List _).length, none) ∧
      (∀ buffer0 : List wasmer_value_tag,
        buffer0.length = ([wasmer_value_tag.WASM_I32] : List _).length →
        wasmer_import_func_params retrieved buffer0 =
          .ok (.WASMER_OK, [.WASM_I32], none)) ∧
      (∀ buffer0 : List wasmer_value_tag,
        buffer0.length = ([wasmer_value_tag.WASM_F64] : List _).length →
        wasmer_import_func_returns retrieved buffer0 =
          .ok (.WASMER_OK, [.WASM_F64], none))) :=
  ⟨rfl, rfl, by decide,
    c4_function_roundtrip 3 [.WASM_I32] [.WASM_F64] [101] [102]
      ⟨[], [], .WASM_FUNCTION, 0⟩ 0 [.memoryCell 9] 5 rfl rfl (by decide)⟩

/-- C6: if any input record's namespace or name bytes are not valid UTF-8,
`wasmer_import_object_extend` fails as a whole with the error result and
one of the two encoding-error messages; no per-record status exists. -/
theorem c6_extend_encoding_error (obj : ImportObject) (heap : List HeapCell)
    (records : List wasmer_import_t)
    (h : ∃ r ∈ records, utf8Valid r.module_name = false ∨
      utf8Valid r.import_name = false) :
    (wasmer_import_object_extend obj heap records).1 = .WASMER_ERROR ∧
    ∃ msg, (wasmer_import_object_extend obj heap records).2.2 = some msg ∧
      (msg = "error converting module name to string" ∨
        msg = "error converting import_name to string") := by
  obtain ⟨msg, hloop, hmsg⟩ := extend_loop_error heap records [] h
  unfold wasmer_import_object_extend
  rw [hloop]
  exact ⟨rfl, msg, rfl, hmsg⟩

/-- C6 witness: one record whose namespace byte 0xFF is invalid UTF-8 makes
the whole call fail with an encoding-error message. -/
theorem c6_extend_encoding_error_witness :
    (∃ r ∈ ([⟨[255], [101], .WASM_MEMORY, 0⟩] : List wasmer_import_t),
      utf8Valid r.module_name = false ∨ utf8Valid r.import_name = false) ∧
    ((wasmer_import_object_extend [([103], [104], .memory 3)] [.memoryCell 8]
        [⟨[255], [101], .WASM_MEMORY, 0⟩]).1 = .WASMER_ERROR ∧
    ∃ msg, (wasmer_import_object_extend [([103], [104], .memory 3)]
        [.memoryCell 8] [⟨[255], [101], .WASM_MEMORY, 0⟩]).2.2 = some msg ∧
      (msg = "error converting module name to string" ∨
        msg = "error converting import_name to string")) :=
  ⟨by decide,
    c6_extend_encoding_error [([103], [104], .memory 3)] [.memoryCell 8]
      [⟨[255], [101], .WASM_MEMORY, 0⟩] (by decide)⟩

/-- C7: every signature-introspection operation applied to a non-Function
entity returns the error result with a non-empty message and leaves the
caller-supplied output (result slot or buffer) untouched. -/
theorem c7_non_function_introspection (e : Export) (result0 : Nat)
    (buffer0 : List wasmer_value_tag)
    (h : isFunctionExport e = false) :
    ∃ m1 m2 m3 m4 : String,
      m1 ≠ "" ∧ m2 ≠ "" ∧ m3 ≠ "" ∧ m4 ≠ "" ∧
      wasmer_import_func_params_arity e result0 =
        (.WASMER_ERROR, result0, some m1) ∧
      wasmer_import_func_returns_arity e result0 =
        (.WASMER_ERROR, result0, some m2) ∧
      wasmer_import_func_params e buffer0 =
        .ok (.WASMER_ERROR, buffer0, some m3) ∧
      wasmer_import_func_returns e buffer0 =
        .ok (.WASMER_ERROR, buffer0, some m4) := by
  cases e with
  | function f c s => simp [isFunctionExport] at h
  | memory m =>
    exact ⟨"func ptr error in wasmer_import_func_params_arity",
      "func ptr error in wasmer_import_func_results_arity",
      "func ptr error in wasmer_import_func_params",
      "func ptr error in wasmer_import_func_returns",
      by decide, by decide, by decide, by decide, rfl, rfl, rfl, rfl⟩
  | table t =>
    exact ⟨"func ptr error in wasmer_import_func_params_arity",
      "func ptr error in wasmer_import_func_results_arity",
      "func ptr error in wasmer_import_func_params",
      "func ptr error in wasmer_import_func_returns",
      by decide, by decide, by decide, by decide, rfl, rfl, rfl, rfl⟩
  | global g =>
    exact ⟨"func ptr error in wasmer_import_func_params_arity",
      "func ptr error in wasmer_import_func_results_arity",
      "func ptr error in wasmer_import_func_params",
      "func ptr error in wasmer_import_func_returns",
      by decide, by decide, by decide, by decide, rfl, rfl, rfl, rfl⟩

/-- C7 witness: a memory entity put through all four introspection
operations errors with non-empty messages and untouched outputs. -/
theorem c7_non_function_introspection_witness :
    isFunctionExport (.memory 0) = false ∧
    ∃ m1 m2 m3 m4 : String,
      m1 ≠ "" ∧ m2 ≠ "" ∧ m3 ≠ "" ∧ m4 ≠ "" ∧
      wasmer_import_func_params_arity (.memory 0) 5 =
        (.WASMER_ERROR, 5, some m1) ∧
      wasmer_import_func_returns_arity (.memory 0) 5 =
        (.WASMER_ERROR, 5, some m2) ∧
      wasmer_import_func_params (.memory 0) [.WASM_I32] =
        .ok (.WASMER_ERROR, [.WASM_I32], some m3) ∧
      wasmer_import_func_returns (.memory 0) [.WASM_I32] =
        .ok (.WASMER_ERROR, [.WASM_I32], some m4) :=
  ⟨rfl, c7_non_function_introspection (.memory 0) 5 [.WASM_I32] rfl⟩

/-- C8: `wasmer_import_object_extend` is all-or-nothing: on any record with
invalid UTF-8 namespace or name bytes, the registry comes back exactly as
it was (conversions are collected before any insertion happens). -/
theorem c8_extend_atomic (obj : ImportObject) (heap : List HeapCell)
    (records : List wasmer_import_t)
    (h : ∃ r ∈ records, utf8Valid r.module_name = false ∨
      utf8Valid r.import_name = false) :
    (wasmer_import_object_extend obj heap records).2.1 = obj ∧
    (wasmer_import_object_extend obj heap records).1 = .WASMER_ERROR := by
  obtain ⟨msg, hloop, -⟩ := extend_loop_error heap records [] h
  unfold wasmer_import_object_extend
  rw [hloop]
  exact ⟨rfl, rfl⟩

/-- C8 witness: a failing record list (valid first record, invalid second)
leaves a one-entry registry exactly as it was. -/
theorem c8_extend_atomic_witness :
    (∃ r ∈ ([⟨[101], [102], .WASM_MEMORY, 0⟩,
        ⟨[101], [255], .WASM_MEMORY, 0⟩] : List wasmer_import_t),
      utf8Valid r.module_name = false ∨ utf8Valid r.import_name = false) ∧
    ((wasmer_import_object_extend [([103], [104], .memory 3)] [.memoryCell 8]
        [⟨[101], [102], .WASM_MEMORY, 0⟩,
          ⟨[101], [255], .WASM_MEMORY, 0⟩]).2.1 =
      [([103], [104], .memory 3)] ∧
    (wasmer_import_object_extend [([103], [104], .memory 3)] [.memoryCell 8]
        [⟨[101], [102], .WASM_MEMORY, 0⟩,
          ⟨[101], [255], .WASM_MEMORY, 0⟩]).1 = .WASMER_ERROR) :=
  ⟨by decide,
    c8_extend_atomic [([103], [104], .memory 3)] [.memoryCell 8]
      [⟨[101], [102], .WASM_MEMORY, 0⟩, ⟨[101], [255], .WASM_MEMORY, 0⟩]
      (by decide)⟩

/-- C9: `wasmer_import_func_params` and `wasmer_import_func_returns` copy
exactly arity-many entries without consulting the supplied buffer length:
on a Function entity built from tags P and R, the copy stays in bounds if
and only if the buffer length is at least the arity — a shorter buffer
makes the indexing go out of bounds — and when it fits, exactly the first
arity entries of the buffer are overwritten, the rest kept. -/
theorem c9_signature_copy_buffer_bound (fp : Nat)
    (P R buffer0 : List wasmer_value_tag) :
    (wasmer_import_func_params (wasmer_import_func_new fp P R) buffer0 =
      if P.length ≤ buffer0.length then
        .ok (.WASMER_OK, P ++ buffer0.drop P.length, none)
      else .indexOutOfBounds) ∧
    (wasmer_import_func_params (wasmer_import_func_new fp P R) buffer0 ≠
        .indexOutOfBounds ↔ P.length ≤ buffer0.length) ∧
    (wasmer_import_func_returns (wasmer_import_func_new fp P R) buffer0 =
      if R.length ≤ buffer0.length then
        .ok (.WASMER_OK, R ++ buffer0.drop R.length, none)
      else .indexOutOfBounds) ∧
    (wasmer_import_func_returns (wasmer_import_func_new fp P R) buffer0 ≠
        .indexOutOfBounds ↔ R.length ≤ buffer0.length) := by
  have hp : wasmer_import_func_params (wasmer_import_func_new fp P R)
      buffer0 =
      if P.length ≤ buffer0.length then
        .ok (.WASMER_OK, P ++ buffer0.drop P.length, none)
      else .indexOutOfBounds := by
    simp only [wasmer_import_func_new, wasmer_import_func_params,
      map_roundtrip, writeLoop_zero]
    by_cases h : P.length ≤ buffer0.length <;> simp [h]
  have hr : wasmer_import_func_returns (wasmer_import_func_new fp P R)
      buffer0 =
      if R.length ≤ buffer0.length then
        .ok (.WASMER_OK, R ++ buffer0.drop R.length, none)
      else .indexOutOfBounds := by
    simp only [wasmer_import_func_new, wasmer_import_func_returns,
      map_roundtrip, writeLoop_zero]
    by_cases h : R.length ≤ buffer0.length <;> simp [h]
  refine ⟨hp, ?_, hr, ?_⟩
  · rw [hp]
    by_cases h : P.length ≤ buffer0.length <;> simp [h]
  · rw [hr]
    by_cases h : R.length ≤ buffer0.length <;> simp [h]

end Wasmer
